import Mathlib

/-!
Shallow embedding of the scratchpad editor core (src/app.rs, src/renderer.rs,
src/error.rs) and proofs about its buffer/dispatch state machine and its
per-frame render pipeline.

Machine strings are modelled as `List Char` (sequences of Unicode scalar
values); Rust byte lengths are recovered through `Char.utf8Size`.  Fallible
operations (ropey panics, string-slice panics) are modelled with `Option`,
`none` standing for a panic.
-/

/-- UTF-8 byte length of a character sequence: the value of Rust `str::len` /
`SmolStr::len` on the corresponding string. -/
def utf8Len (s : List Char) : Nat :=
  (s.map Char.utf8Size).sum

/-- A `ropey::Rope`, modelled by its character sequence. -/
structure Rope where
  chars : List Char
deriving DecidableEq

/-- `Rope::new()`: the empty rope. -/
def Rope.new : Rope := ⟨[]⟩

/-- `Rope::len_chars()`: number of characters (Unicode scalar values). -/
def Rope.len_chars (r : Rope) : Nat := r.chars.length

/-- `Rope::insert(char_idx, text)`: inserts at a character index; ropey
panics (`none`) when `char_idx > len_chars`. -/
def Rope.insert (r : Rope) (char_idx : Nat) (text : List Char) : Option Rope :=
  if char_idx ≤ r.chars.length then
    some ⟨r.chars.take char_idx ++ text ++ r.chars.drop char_idx⟩
  else none

/-- `Rope::remove(start..stop)` over a character range; ropey panics
(`none`) when `start > stop` or `stop > len_chars`. -/
def Rope.remove (r : Rope) (start stop : Nat) : Option Rope :=
  if start ≤ stop ∧ stop ≤ r.chars.length then
    some ⟨r.chars.take start ++ r.chars.drop stop⟩
  else none

/-- `winit::keyboard::NamedKey`, restricted to the variants the dispatcher
matches on; every other named key is `Other` (the `_ => {}` arm). -/
inductive NamedKey
  | Backspace
  | Delete
  | ArrowLeft
  | ArrowRight
  | Home
  | End
  | Enter
  | Space
  | Escape
  | Other
deriving DecidableEq

/-- `winit::keyboard::Key`: a named key or a character payload (a `SmolStr`,
possibly holding more than one scalar value). -/
inductive Key
  | Named (k : NamedKey)
  | Character (s : List Char)
deriving DecidableEq

/-- `winit::event::ElementState`. -/
inductive ElementState
  | Pressed
  | Released
deriving DecidableEq

/-- The buffer-relevant fields of `App` (src/app.rs).  The `error`,
`renderer` and `window` fields are external handles with no bearing on the
buffer state machine. -/
structure App where
  cursor_position : Nat
  editor_content : Rope
deriving DecidableEq

/-- `App::new()`: empty content, cursor at 0. -/
def App.new : App := ⟨0, Rope.new⟩

/-- `App::handle_keyboard_input` (src/app.rs lines 43-92), translated
arm by arm.  `none` models a ropey panic.  Note the `Key::Character` arm:
the source advances the cursor by `c.len()`, the UTF-8 byte length of the
payload, while the rope insertion itself is character-indexed. -/
def App.handle_keyboard_input (self : App) (key : Key) (state : ElementState) :
    Option App :=
  if state = ElementState.Pressed then
    match key with
    | .Named .Backspace =>
      if self.cursor_position > 0 then
        (self.editor_content.remove (self.cursor_position - 1) self.cursor_position).map
          (fun r => ⟨self.cursor_position - 1, r⟩)
      else some self
    | .Named .Delete =>
      if self.cursor_position < self.editor_content.len_chars then
        (self.editor_content.remove self.cursor_position (self.cursor_position + 1)).map
          (fun r => ⟨self.cursor_position, r⟩)
      else some self
    | .Named .ArrowLeft =>
      some (if self.cursor_position > 0 then
        ⟨self.cursor_position - 1, self.editor_content⟩ else self)
    | .Named .ArrowRight =>
      some (if self.cursor_position < self.editor_content.len_chars then
        ⟨self.cursor_position + 1, self.editor_content⟩ else self)
    | .Named .Home => some ⟨0, self.editor_content⟩
    | .Named .End => some ⟨self.editor_content.len_chars, self.editor_content⟩
    | .Named .Enter =>
      (self.editor_content.insert self.cursor_position ['\n']).map
        (fun r => ⟨self.cursor_position + 1, r⟩)
    | .Named .Space =>
      (self.editor_content.insert self.cursor_position [' ']).map
        (fun r => ⟨self.cursor_position + 1, r⟩)
    | .Character c =>
      (self.editor_content.insert self.cursor_position c).map
        (fun r => ⟨self.cursor_position + utf8Len c, r⟩)
    | .Named .Escape => some self
    | .Named .Other => some self
  else some self

/-- Dispatch a sequence of keyboard events, propagating a panic. -/
def App.dispatch (self : App) (events : List (Key × ElementState)) : Option App :=
  events.foldl (fun acc ev => acc.bind (fun a => a.handle_keyboard_input ev.1 ev.2)) (some self)

example :
    App.new.handle_keyboard_input (Key.Character ['h','e','l','l','o'])
      ElementState.Pressed = some ⟨5, ⟨['h','e','l','l','o']⟩⟩ := by decide

example :
    App.new.handle_keyboard_input (Key.Character ['é'])
      ElementState.Pressed = some ⟨2, ⟨['é']⟩⟩ := by decide

example :
    (App.new.handle_keyboard_input (Key.Character ['é']) ElementState.Pressed).bind
      (fun a => a.handle_keyboard_input (Key.Named NamedKey.Backspace)
        ElementState.Pressed) = none := by decide

example :
    App.new.dispatch [(Key.Character ['é'], ElementState.Pressed),
      (Key.Named NamedKey.ArrowLeft, ElementState.Pressed)] = some ⟨1, ⟨['é']⟩⟩ := by
  decide

/-- `winit::dpi::PhysicalSize<u32>`. -/
structure PhysicalSize where
  width : Nat
  height : Nat
deriving DecidableEq

/-- `wgpu::SurfaceConfiguration` (the fields set in src/renderer.rs lines
56-65).  `alpha_mode`, `format`, `present_mode` and `usage` are opaque GPU
enums, modelled as abstract codes. -/
structure SurfaceConfiguration where
  alpha_mode : Nat
  desired_maximum_frame_latency : Nat
  format : Nat
  height : Nat
  present_mode : Nat
  usage : Nat
  view_formats : List Nat
  width : Nat
deriving DecidableEq

/-- The state-bearing fields of `Renderer` (src/renderer.rs).  The
`device`, `queue`, `surface`, `glyph_brush`, `staging_belt` and
`cursor_blink_timer` fields are external handles; the blink timer's
`elapsed > 500ms` test enters the model as an input (`blink_elapsed`). -/
structure Renderer where
  config : SurfaceConfiguration
  cursor_visible : Bool
  size : PhysicalSize
deriving DecidableEq

/-- `Renderer::resize` (src/renderer.rs lines 93-100).  The
`surface.configure` call is an external GPU effect driven by `config`. -/
def Renderer.resize (self : Renderer) (new_size : PhysicalSize) : Renderer :=
  if new_size.width > 0 ∧ new_size.height > 0 then
    { self with
        size := new_size
        config := { self.config with width := new_size.width, height := new_size.height } }
  else self

/-- The `Error` enum of src/error.rs, minus the external `source` and
`backtrace` payloads. -/
inductive Error
  | EventLoopBuild
  | CreateWindow
  | CreateSurface
  | CurrentTexture
  | Device
  | RunApp
  | Internal (message : String)
deriving DecidableEq

/-- A `wgpu_glyph::Section` as queued by `Renderer::render`: screen
position, wrap bounds and the text run.  Coordinates are exact rationals
standing for the `f32` values of the source. -/
structure Section where
  screen_position : ℚ × ℚ
  bounds : ℚ × ℚ
  text : List Char
deriving DecidableEq

/-- Outcomes of the external collaborators consulted during one
`Renderer::render` call: whether the blink timer exceeded 500ms, whether
`surface.get_current_texture()` succeeds, and the results of the two
`glyph_brush.draw_queued` calls (`none` = Ok, `some e` = the error string). -/
structure RenderExternals where
  blink_elapsed : Bool
  acquire_ok : Bool
  text_flush : Option String
  cursor_flush : Option String
deriving DecidableEq

/-- Observable outcome of one `Renderer::render` call: the glyph sections
queued, whether the encoded commands were submitted to the queue, whether
the acquired texture was presented, and the returned `Result`
(`none` = Ok). -/
structure RenderOutput where
  queued : List Section
  submitted : Bool
  presented : Bool
  result : Option Error
deriving DecidableEq

/-- The cursor visibility after the blink update at the top of
`Renderer::render` (src/renderer.rs lines 107-110). -/
def Renderer.blinked_visible (self : Renderer) (ext : RenderExternals) : Bool :=
  if ext.blink_elapsed then !self.cursor_visible else self.cursor_visible

/-- Rust `&text_content[0..cursor_position]`: the characters of the byte
range `0..k`, or `none` (a panic) when `k` is not a character boundary of
the string or exceeds its byte length. -/
def byteTake : List Char → Nat → Option (List Char)
  | _, 0 => some []
  | [], _ + 1 => none
  | c :: cs, k + 1 =>
    if c.utf8Size ≤ k + 1 then (byteTake cs (k + 1 - c.utf8Size)).map (fun l => c :: l)
    else none

/-- Source literal `30.0`: the x margin of the text run. -/
def x_margin : ℚ := 30

/-- Source literal `40.0`: the y margin of the text run. -/
def y_margin : ℚ := 40

/-- Source literal `15.2`: the fixed per-character advance used for the
caret position. -/
def char_width : ℚ := 76 / 5

/-- `Renderer::render` (src/renderer.rs lines 102-217), with the external
GPU/glyph outcomes passed in `ext`.  `none` models the panic of the byte
slice `&text_content[0..cursor_position]` on line 148; every `?` early
return produces an output whose commands were neither submitted nor
presented.  The clear pass touches no modelled state.  Note the caret
x position on line 180 multiplies `text_before_cursor.len()` — a UTF-8
byte count — by `char_width`. -/
def Renderer.render (self : Renderer) (ext : RenderExternals)
    (text_content : List Char) (cursor_position : Nat) : Option RenderOutput :=
  let cursor_visible := self.blinked_visible ext
  if !ext.acquire_ok then
    some ⟨[], false, false, some Error.CurrentTexture⟩
  else
    match byteTake text_content cursor_position with
    | none => none
    | some text_before_cursor =>
      let text_section : Section :=
        ⟨(x_margin, y_margin), ((self.size.width : ℚ), (self.size.height : ℚ)), text_content⟩
      match ext.text_flush with
      | some e =>
        some ⟨[text_section], false, false,
          some (Error.Internal ("Failed to render text: " ++ e))⟩
      | none =>
        if cursor_visible then
          let cursor_x := x_margin + (utf8Len text_before_cursor : ℚ) * char_width
          let cursor_section : Section :=
            ⟨(cursor_x, y_margin), ((self.size.width : ℚ), (self.size.height : ℚ)), ['|']⟩
          match ext.cursor_flush with
          | some e =>
            some ⟨[text_section, cursor_section], false, false,
              some (Error.Internal ("Failed to render cursor: " ++ e))⟩
          | none => some ⟨[text_section, cursor_section], true, true, none⟩
        else
          some ⟨[text_section], true, true, none⟩

/-- `App::render` (src/app.rs lines 34-41) when a renderer is present:
serializes the rope and forwards content and cursor to `Renderer::render`. -/
def App.render (self : App) (renderer : Renderer) (ext : RenderExternals) :
    Option RenderOutput :=
  renderer.render ext self.editor_content.chars self.cursor_position

/-- A concrete renderer used to instantiate theorems. -/
def sampleRenderer : Renderer :=
  ⟨⟨1, 2, 3, 600, 4, 5, [6], 800⟩, true, ⟨800, 600⟩⟩

/-- Externals where every collaborator succeeds and the blink threshold has
not elapsed. -/
def allOk : RenderExternals := ⟨false, true, none, none⟩

/-- Externals where only the caret glyph flush fails. -/
def cursorFlushFails : RenderExternals := ⟨false, true, none, some "glyph error"⟩

example :
    (sampleRenderer.render cursorFlushFails ['a'] 1).map
      (fun o => (o.submitted, o.presented, o.result)) =
    some (false, false, some (Error.Internal "Failed to render cursor: glyph error")) := by
  decide

example :
    (sampleRenderer.render allOk ['é'] 2).map
      (fun o => o.queued.map (fun s => (s.screen_position.1, s.text))) =
    some [(x_margin, ['é']), (x_margin + (utf8Len ['é'] : ℚ) * char_width, ['|'])] := rfl

example : x_margin + (2 : ℚ) * char_width ≠ x_margin + (1 : ℚ) * char_width := by
  norm_num [x_margin, char_width]

example : ((utf8Len ['é'] : ℚ)) = (2 : ℚ) := by
  have h : utf8Len ['é'] = 2 := by decide
  rw [h]
  norm_num

/-- `k` is a character boundary of `s` (Rust `str::is_char_boundary` on the
byte offset `k`, together with `k` being in range): `k` is the byte length
of some character-prefix of `s`. -/
def IsCharBoundary (s : List Char) (k : Nat) : Prop :=
  ∃ i, i ≤ s.length ∧ utf8Len (s.take i) = k

theorem utf8Len_nil : utf8Len [] = 0 := rfl

theorem utf8Len_cons (c : Char) (cs : List Char) :
    utf8Len (c :: cs) = c.utf8Size + utf8Len cs := by
  simp [utf8Len]

/-- When the byte slice succeeds, the byte length of the sliced characters
is exactly the requested byte offset. -/
theorem utf8Len_byteTake : ∀ (s : List Char) (k : Nat) (l : List Char),
    byteTake s k = some l → utf8Len l = k := by
  intro s
  induction s with
  | nil =>
    intro k l h
    cases k with
    | zero =>
      simp only [byteTake, Option.some.injEq] at h
      rw [← h]
      rfl
    | succ k => simp [byteTake] at h
  | cons c cs ih =>
    intro k l h
    cases k with
    | zero =>
      simp only [byteTake, Option.some.injEq] at h
      rw [← h]
      rfl
    | succ k =>
      simp only [byteTake] at h
      by_cases hle : c.utf8Size ≤ k + 1
      · rw [if_pos hle] at h
        obtain ⟨l', hl', rfl⟩ := Option.map_eq_some'.mp h
        rw [utf8Len_cons, ih _ _ hl']
        omega
      · rw [if_neg hle] at h
        cases h

/-- The byte slice `&s[0..k]` succeeds exactly when `k` is at most the byte
length of `s` and falls on a character boundary. -/
theorem byteTake_isSome_iff : ∀ (s : List Char) (k : Nat),
    (byteTake s k).isSome = true ↔ (k ≤ utf8Len s ∧ IsCharBoundary s k) := by
  intro s
  induction s with
  | nil =>
    intro k
    cases k with
    | zero =>
      simp only [byteTake, Option.isSome_some, true_iff]
      exact ⟨Nat.le_refl 0, 0, Nat.le_refl 0, rfl⟩
    | succ k =>
      simp only [byteTake, Option.isSome_none, Bool.false_eq_true, false_iff]
      intro ⟨hlen, _⟩
      simp [utf8Len] at hlen
  | cons c cs ih =>
    intro k
    cases k with
    | zero =>
      simp only [byteTake, Option.isSome_some, true_iff]
      exact ⟨Nat.zero_le _, 0, Nat.zero_le _, rfl⟩
    | succ k =>
      simp only [byteTake]
      by_cases hle : c.utf8Size ≤ k + 1
      · rw [if_pos hle]
        rw [Option.isSome_map']
        rw [ih (k + 1 - c.utf8Size)]
        constructor
        · intro ⟨hlen, i, hi, he⟩
          refine ⟨by rw [utf8Len_cons]; omega, i + 1, by simp; omega, ?_⟩
          rw [List.take_succ_cons, utf8Len_cons, he]
          omega
        · intro ⟨hlen, i, hi, he⟩
          cases i with
          | zero => simp [utf8Len_nil] at he
          | succ j =>
            rw [List.take_succ_cons, utf8Len_cons] at he
            refine ⟨?_, j, by simpa using hi, by omega⟩
            rw [utf8Len_cons] at hlen
            omega
      · rw [if_neg hle]
        simp only [Option.isSome_none, Bool.false_eq_true, false_iff]
        intro ⟨hlen, i, hi, he⟩
        cases i with
        | zero => simp [utf8Len_nil] at he
        | succ j =>
          rw [List.take_succ_cons, utf8Len_cons] at he
          omega

example : (⟨1, ⟨['é']⟩⟩ : App).render sampleRenderer allOk = none := by decide

/-- C1: the spec claims that after every dispatched operation from every
reachable buffer state, `0 <= cursor <= len(content)` with `len` counting
characters.  The code violates this: from the initial (reachable) empty
buffer, a press of `Character "é"` leaves `cursor_position = 2` while the
content holds 1 character, because the `Key::Character` arm advances the
cursor by the payload's UTF-8 byte length (`c.len()`), not its character
count. -/
theorem c1_cursor_invariant_violated :
    App.new.handle_keyboard_input (Key.Character ['é']) ElementState.Pressed =
      some ⟨2, ⟨['é']⟩⟩ ∧
    Rope.len_chars ⟨['é']⟩ = 1 ∧ ¬((2 : Nat) ≤ 1) := by decide

/-- C2: the spec claims a `Character(s)` press advances the cursor by the
character count of `s` (and that inserting "hello" into an empty buffer
gives content "hello", cursor 5).  The "hello" scenario holds because the
payload is ASCII, but in general the code advances by `c.len()`, the UTF-8
byte length: the one-character payload "é" advances the cursor by 2. -/
theorem c2_insert_advances_by_byte_length :
    App.new.handle_keyboard_input (Key.Character ['h','e','l','l','o'])
      ElementState.Pressed = some ⟨5, ⟨['h','e','l','l','o']⟩⟩ ∧
    App.new.handle_keyboard_input (Key.Character ['é']) ElementState.Pressed =
      some ⟨2, ⟨['é']⟩⟩ ∧
    (['é'] : List Char).length = 1 ∧ utf8Len ['é'] = 2 := by decide

/-- C3: the spec claims inserting a single character and then pressing
Backspace restores the pre-insertion content and cursor.  For the
one-character payload "é" the code instead panics: the insertion leaves
`cursor_position = 2` on a 1-character rope, and the Backspace arm then
calls `Rope::remove(1..2)`, whose character range is out of bounds
(`none` models the ropey panic). -/
theorem c3_insert_backspace_roundtrip_panics :
    App.new.dispatch [(Key.Character ['é'], ElementState.Pressed),
      (Key.Named NamedKey.Backspace, ElementState.Pressed)] = none := by decide

/-- C4: on any buffer state satisfying the data-model invariant
`cursor <= len(content)`, a Backspace press removes exactly the character
immediately before the cursor and decrements the cursor when `cursor > 0`,
and is a no-op (never an error) when `cursor = 0`. -/
theorem c4_backspace_spec (a : App)
    (h : a.cursor_position ≤ a.editor_content.len_chars) :
    a.handle_keyboard_input (Key.Named NamedKey.Backspace) ElementState.Pressed =
      some (if 0 < a.cursor_position then
        ⟨a.cursor_position - 1, ⟨a.editor_content.chars.eraseIdx (a.cursor_position - 1)⟩⟩
      else a) := by
  have hstep : a.handle_keyboard_input (Key.Named NamedKey.Backspace) ElementState.Pressed =
      (if a.cursor_position > 0 then
        (a.editor_content.remove (a.cursor_position - 1) a.cursor_position).map
          (fun r => (⟨a.cursor_position - 1, r⟩ : App))
      else some a) := rfl
  rw [hstep]
  by_cases h0 : 0 < a.cursor_position
  · rw [if_pos h0, if_pos h0]
    simp only [Rope.remove]
    rw [if_pos ⟨Nat.sub_le _ _, h⟩]
    simp only [Option.map_some']
    have hc : a.cursor_position - 1 + 1 = a.cursor_position := by omega
    rw [List.eraseIdx_eq_take_drop_succ, hc]
  · rw [if_neg h0, if_neg h0]

/-- Witness for C4 at the concrete state (content "ab", cursor 2). -/
theorem c4_backspace_spec_witness :
    (⟨2, ⟨['a','b']⟩⟩ : App).cursor_position ≤
      (⟨2, ⟨['a','b']⟩⟩ : App).editor_content.len_chars ∧
    (⟨2, ⟨['a','b']⟩⟩ : App).handle_keyboard_input (Key.Named NamedKey.Backspace)
      ElementState.Pressed = some ⟨1, ⟨['a']⟩⟩ :=
  ⟨by decide, by
    have h := c4_backspace_spec ⟨2, ⟨['a','b']⟩⟩ (by decide)
    exact h.trans (by decide)⟩

/-- C5: a Delete press removes exactly the character at the cursor and
leaves the cursor unchanged when `cursor < len(content)`, and is a no-op
when `cursor = len(content)`. -/
theorem c5_delete_forward_spec (a : App) :
    (a.cursor_position < a.editor_content.len_chars →
      a.handle_keyboard_input (Key.Named NamedKey.Delete) ElementState.Pressed =
        some ⟨a.cursor_position, ⟨a.editor_content.chars.eraseIdx a.cursor_position⟩⟩) ∧
    (a.cursor_position = a.editor_content.len_chars →
      a.handle_keyboard_input (Key.Named NamedKey.Delete) ElementState.Pressed =
        some a) := by
  have hstep : a.handle_keyboard_input (Key.Named NamedKey.Delete) ElementState.Pressed =
      (if a.cursor_position < a.editor_content.len_chars then
        (a.editor_content.remove a.cursor_position (a.cursor_position + 1)).map
          (fun r => (⟨a.cursor_position, r⟩ : App))
      else some a) := rfl
  rw [hstep]
  constructor
  · intro hlt
    rw [if_pos hlt]
    simp only [Rope.remove]
    rw [if_pos ⟨Nat.le_succ _, hlt⟩]
    simp only [Option.map_some']
    rw [List.eraseIdx_eq_take_drop_succ]
  · intro heq
    rw [if_neg (by omega)]

/-- Witness for C5 at the concrete state (content "ab", cursor 1). -/
theorem c5_delete_forward_spec_witness :
    (⟨1, ⟨['a','b']⟩⟩ : App).handle_keyboard_input (Key.Named NamedKey.Delete)
      ElementState.Pressed = some ⟨1, ⟨['a']⟩⟩ := by
  have h := (c5_delete_forward_spec ⟨1, ⟨['a','b']⟩⟩).1 (by decide)
  exact h.trans (by decide)

/-- C6: for every key (named or character payload) and every buffer state,
an event carrying the release indicator produces no TextBuffer mutation:
the dispatcher returns the state unchanged (and cannot panic). -/
theorem c6_release_events_are_noops (key : Key) (a : App) :
    a.handle_keyboard_input key ElementState.Released = some a := rfl

/-- C7 counterexample: rendering the content "é" with cursor offset 2 (the
state the buffer itself produces after inserting "é").  The caret glyph is
queued at `x_margin + utf8Len ['é'] * char_width`, i.e. byte count 2 times
the advance, while the number of characters preceding the cursor is 1 (the
slice is the single character 'é'), and the two positions differ: the claim
`x = xMargin + characterCountBeforeCursor * fixedAdvanceWidth` is false
here. -/
theorem c7_counterexample :
    (sampleRenderer.render allOk ['é'] 2).map
      (fun o => o.queued.map (fun s => (s.screen_position.1, s.text))) =
      some [(x_margin, ['é']), (x_margin + (utf8Len ['é'] : ℚ) * char_width, ['|'])] ∧
    ((utf8Len ['é'] : ℚ)) = (2 : ℚ) ∧
    byteTake ['é'] 2 = some ['é'] ∧ (['é'] : List Char).length = 1 ∧
    x_margin + (2 : ℚ) * char_width ≠ x_margin + (1 : ℚ) * char_width := by
  refine ⟨rfl, ?_, by decide, by decide, by norm_num [x_margin, char_width]⟩
  have h : utf8Len ['é'] = 2 := by decide
  rw [h]
  norm_num

/-- C7 amended: when the texture is acquired, the byte slice at
`cursor_position` succeeds and the text flush succeeds, a visible cursor
queues exactly one caret glyph "|" at horizontal position
`x_margin + cursor_position * char_width` — `cursor_position` being the
byte length of the text before the cursor, not its character count — and
an invisible cursor queues no caret glyph. -/
theorem c7_caret_uses_byte_offset (r : Renderer) (ext : RenderExternals)
    (tc : List Char) (cp : Nat) (tbc : List Char)
    (hacq : ext.acquire_ok = true) (hslice : byteTake tc cp = some tbc)
    (htext : ext.text_flush = none) (hcur : ext.cursor_flush = none) :
    (r.blinked_visible ext = true →
      r.render ext tc cp = some ⟨
        [⟨(x_margin, y_margin), ((r.size.width : ℚ), (r.size.height : ℚ)), tc⟩,
         ⟨(x_margin + (cp : ℚ) * char_width, y_margin),
           ((r.size.width : ℚ), (r.size.height : ℚ)), ['|']⟩],
        true, true, none⟩) ∧
    (r.blinked_visible ext = false →
      r.render ext tc cp = some ⟨
        [⟨(x_margin, y_margin), ((r.size.width : ℚ), (r.size.height : ℚ)), tc⟩],
        true, true, none⟩) := by
  have hlen : utf8Len tbc = cp := utf8Len_byteTake tc cp tbc hslice
  constructor <;> intro hvis <;>
    simp [Renderer.render, hacq, hslice, htext, hcur, hvis, hlen]

/-- Witness for C7 (amended) at content "a", cursor 1, all collaborators
succeeding. -/
theorem c7_caret_uses_byte_offset_witness :
    byteTake ['a'] 1 = some ['a'] ∧
    ((sampleRenderer.blinked_visible allOk = true →
      sampleRenderer.render allOk ['a'] 1 = some ⟨
        [⟨(x_margin, y_margin),
           ((sampleRenderer.size.width : ℚ), (sampleRenderer.size.height : ℚ)), ['a']⟩,
         ⟨(x_margin + ((1 : Nat) : ℚ) * char_width, y_margin),
           ((sampleRenderer.size.width : ℚ), (sampleRenderer.size.height : ℚ)), ['|']⟩],
        true, true, none⟩) ∧
    (sampleRenderer.blinked_visible allOk = false →
      sampleRenderer.render allOk ['a'] 1 = some ⟨
        [⟨(x_margin, y_margin),
           ((sampleRenderer.size.width : ℚ), (sampleRenderer.size.height : ℚ)), ['a']⟩],
        true, true, none⟩)) :=
  ⟨by decide, c7_caret_uses_byte_offset sampleRenderer allOk ['a'] 1 ['a']
    rfl (by decide) rfl rfl⟩

/-- C8 counterexample: with the text flush succeeding and the caret flush
failing, the render call returns the glyph-flush error but the frame IS
aborted — nothing is submitted to the queue and the texture is not
presented, contradicting the claim that the queued text is still
submitted and the texture still presented. -/
theorem c8_counterexample :
    cursorFlushFails.text_flush = none ∧
    cursorFlushFails.cursor_flush = some "glyph error" ∧
    (sampleRenderer.render cursorFlushFails ['a'] 1).map
      (fun o => (o.queued.map Section.text, o.submitted, o.presented, o.result)) =
      some ([['a'], ['|']], false, false,
        some (Error.Internal "Failed to render cursor: glyph error")) := by decide

/-- C8 amended: when the text pass succeeds but the caret glyph flush
fails, `render` propagates the glyph-flush error as an `Internal` error
via an early return, so the already-queued text is NOT submitted and the
acquired texture is NOT presented: the frame is aborted. -/
theorem c8_caret_flush_failure_aborts_frame (r : Renderer) (ext : RenderExternals)
    (tc : List Char) (cp : Nat) (tbc : List Char) (e : String)
    (hacq : ext.acquire_ok = true) (hslice : byteTake tc cp = some tbc)
    (htext : ext.text_flush = none) (hvis : r.blinked_visible ext = true)
    (hcur : ext.cursor_flush = some e) :
    r.render ext tc cp = some ⟨
      [⟨(x_margin, y_margin), ((r.size.width : ℚ), (r.size.height : ℚ)), tc⟩,
       ⟨(x_margin + (cp : ℚ) * char_width, y_margin),
         ((r.size.width : ℚ), (r.size.height : ℚ)), ['|']⟩],
      false, false, some (Error.Internal ("Failed to render cursor: " ++ e))⟩ := by
  have hlen : utf8Len tbc = cp := utf8Len_byteTake tc cp tbc hslice
  simp [Renderer.render, hacq, hslice, htext, hvis, hcur, hlen]

/-- Witness for C8 (amended) at content "a", cursor 1, caret flush failing
with "glyph error". -/
theorem c8_caret_flush_failure_aborts_frame_witness :
    byteTake ['a'] 1 = some ['a'] ∧
    sampleRenderer.render cursorFlushFails ['a'] 1 = some ⟨
      [⟨(x_margin, y_margin),
         ((sampleRenderer.size.width : ℚ), (sampleRenderer.size.height : ℚ)), ['a']⟩,
       ⟨(x_margin + ((1 : Nat) : ℚ) * char_width, y_margin),
         ((sampleRenderer.size.width : ℚ), (sampleRenderer.size.height : ℚ)), ['|']⟩],
      false, false,
      some (Error.Internal ("Failed to render cursor: " ++ "glyph error"))⟩ :=
  ⟨by decide, c8_caret_flush_failure_aborts_frame sampleRenderer cursorFlushFails
    ['a'] 1 ['a'] "glyph error" rfl (by decide) rfl rfl rfl⟩

/-- C9: resizing with a zero width or height leaves the renderer — in
particular the stored surface configuration — unchanged; resizing with
both dimensions nonzero updates the stored width and height (and the
stored size) and preserves every other configuration field. -/
theorem c9_resize_spec (r : Renderer) (new_size : PhysicalSize) :
    ((new_size.width = 0 ∨ new_size.height = 0) → r.resize new_size = r) ∧
    (0 < new_size.width → 0 < new_size.height →
      (r.resize new_size).config.width = new_size.width ∧
      (r.resize new_size).config.height = new_size.height ∧
      (r.resize new_size).size = new_size ∧
      (r.resize new_size).config.alpha_mode = r.config.alpha_mode ∧
      (r.resize new_size).config.desired_maximum_frame_latency =
        r.config.desired_maximum_frame_latency ∧
      (r.resize new_size).config.format = r.config.format ∧
      (r.resize new_size).config.present_mode = r.config.present_mode ∧
      (r.resize new_size).config.usage = r.config.usage ∧
      (r.resize new_size).config.view_formats = r.config.view_formats ∧
      (r.resize new_size).cursor_visible = r.cursor_visible) := by
  constructor
  · intro h
    rw [Renderer.resize, if_neg (by omega)]
  · intro hw hh
    rw [Renderer.resize, if_pos ⟨hw, hh⟩]
    exact ⟨rfl, rfl, rfl, rfl, rfl, rfl, rfl, rfl, rfl, rfl⟩

/-- Witness for C9: a zero-width resize is the identity on the sample
renderer, and a 400x300 resize updates the width while keeping the
format. -/
theorem c9_resize_spec_witness :
    sampleRenderer.resize ⟨0, 5⟩ = sampleRenderer ∧
    (sampleRenderer.resize ⟨400, 300⟩).config.width = 400 ∧
    (sampleRenderer.resize ⟨400, 300⟩).config.format = sampleRenderer.config.format :=
  ⟨(c9_resize_spec sampleRenderer ⟨0, 5⟩).1 (Or.inl rfl),
   ((c9_resize_spec sampleRenderer ⟨400, 300⟩).2 (by decide) (by decide)).1,
   ((c9_resize_spec sampleRenderer ⟨400, 300⟩).2 (by decide) (by decide)).2.2.2.2.2.1⟩

/-- C10: `Renderer::render` slices `text_content` at the raw byte offset
`cursor_position`.  The slice (hence the render call) succeeds exactly
when the offset is at most the byte length of the content and falls on a
character boundary; when the slice fails, `render` fails even though the
texture was acquired; and the failure is reachable from the initial buffer
(insert "é", then ArrowLeft puts the cursor at character offset 1, whose
byte offset 1 is inside the 2-byte character), so `render` is not total
over the (string, offset) pairs the buffer produces. -/
theorem c10_render_slice_totality :
    (∀ tc cp, (byteTake tc cp).isSome = true ↔
      (cp ≤ utf8Len tc ∧ IsCharBoundary tc cp)) ∧
    (∀ (r : Renderer) (ext : RenderExternals) tc cp, ext.acquire_ok = true →
      byteTake tc cp = none → r.render ext tc cp = none) ∧
    App.new.dispatch [(Key.Character ['é'], ElementState.Pressed),
      (Key.Named NamedKey.ArrowLeft, ElementState.Pressed)] = some ⟨1, ⟨['é']⟩⟩ ∧
    (⟨1, ⟨['é']⟩⟩ : App).render sampleRenderer allOk = none := by
  refine ⟨byteTake_isSome_iff, ?_, by decide, by decide⟩
  intro r ext tc cp hacq hnone
  simp [Renderer.render, hacq, hnone]

/-- Witness for C10: the boundary characterization instantiated at the
string "é" and byte offset 1. -/
theorem c10_render_slice_totality_witness :
    (byteTake ['é'] 1).isSome = true ↔
      (1 ≤ utf8Len ['é'] ∧ IsCharBoundary ['é'] 1) :=
  c10_render_slice_totality.1 ['é'] 1
